import Mathlib

/-!
Shallow embedding of the core proof pipeline of the solana-zk-proof-example
repository, together with theorems checking the natural-language
specification against it.

The embedding covers:
* `src/on-chain-program-example/src/byte_utils.rs` — field codec and the
  4-byte-chunk endianness conversion;
* `src/on-chain-program-example/src/circuit.rs` — `ExampleCircuit` and
  `TokenVerificationCircuit`, their constructors, `public_inputs`, and their
  R1CS constraint synthesis over the BN254 scalar field;
* `src/on-chain-program-example/src/prove.rs` — public-input validation and
  the `generate_proof_package` pipeline (the external Groth16 proving
  algorithm is modelled from the spec as failing exactly on a
  constraint-inconsistent witness);
* `src/on-chain-program-example/src/verify.rs` — point-validity gating of the general verifier and error mapping (curve membership tests and the
  pairing equation are external library capabilities, modelled as boolean
  flags and an injected pairing outcome);
* `src/proof-verify/src/lib.rs` — `Groth16VerifierPrepared`: length-checked
  construction and the flat pairing-input buffer handed to the external
  alt_bn128 multi-pairing primitive (modelled as an injected capability).

Machine integers are modelled as `Nat`; field elements of the BN254 scalar
field are `Nat` values kept below the modulus by explicit `% frModulus`.
-/

set_option maxRecDepth 8000

/-! ## Byte utilities (`byte_utils.rs`) -/

/-- The BN254 (alt_bn128) scalar-field modulus, the order of `Fr`. -/
def frModulus : Nat :=
  21888242871839275222246405745257275088548364400416034343698204186575808495617

/-- `u32::from_le_bytes([b0,b1,b2,b3])`: little-endian interpretation of four
bytes as a 32-bit value. -/
def u32FromLeBytes (b0 b1 b2 b3 : Nat) : Nat :=
  b0 + 256 * b1 + 65536 * b2 + 16777216 * b3

/-- `u32::swap_bytes`: byte-reversal of a 32-bit value. -/
def u32SwapBytes (v : Nat) : Nat :=
  (v % 256) * 16777216 + (v / 256 % 256) * 65536 + (v / 65536 % 256) * 256 +
    (v / 16777216 % 256)

/-- `u32::to_be_bytes`: big-endian byte serialization of a 32-bit value. -/
def u32ToBeBytes (v : Nat) : List Nat :=
  [v / 16777216 % 256, v / 65536 % 256, v / 256 % 256, v % 256]

/-- The per-chunk body of the loop in `convert_endianness`, applied to successive
4-byte chunks: `from_le_bytes`, then `swap_bytes`, then `to_be_bytes`.
Chunks of fewer than 4 bytes are outside the loop bound `copy_size / 4` and
are not processed. -/
def convertChunks : List Nat → List Nat
  | b0 :: b1 :: b2 :: b3 :: rest =>
      u32ToBeBytes (u32SwapBytes (u32FromLeBytes b0 b1 b2 b3)) ++ convertChunks rest
  | _ => []

/-- `convert_endianness::<IN, OUT>(input)` from `byte_utils.rs`: rejects
sizes that are not multiples of 4; otherwise processes
`min IN OUT / 4` chunks of 4 bytes and leaves the remaining output bytes at
their `[0u8; OUTPUT_SIZE]` initialization.  `input` stands for the
`&[u8; INPUT_SIZE]` argument, so callers supply `input.length = inSize`. -/
def convert_endianness (inSize outSize : Nat) (input : List Nat) :
    Except String (List Nat) :=
  if inSize % 4 = 0 ∧ outSize % 4 = 0 then
    .ok (convertChunks (input.take (min inSize outSize)) ++
      List.replicate (outSize - min inSize outSize) 0)
  else
    .error "Input and output sizes must be multiples of 4 bytes"

/-- `field_to_bytes` serializes a scalar-field element to its 32-byte
little-endian canonical form (`serialize_uncompressed` for `Fr`). -/
def field_to_bytes (f : Nat) : List Nat :=
  (List.range 32).map fun i => f / 256 ^ i % 256

/-- Little-endian value of a byte list. -/
def leBytesToNat (b : List Nat) : Nat :=
  b.foldr (fun byte acc => byte % 256 + 256 * acc) 0

/-- `bytes_to_field` (`deserialize_uncompressed` for `Fr`): reads 32
little-endian bytes and fails unless the value is a canonical element,
i.e. below the modulus. -/
def bytes_to_field (b : List Nat) : Except Unit Nat :=
  if b.length = 32 ∧ leBytesToNat b < frModulus then .ok (leBytesToNat b)
  else .error ()

/-! ## Prepared verifier (`proof-verify/src/lib.rs`) -/

/-- A byte array of statically known length, standing for `[u8; n]`. -/
def ByteArray32 (n : Nat) := { l : List Nat // l.length = n }

/-- `Groth16Error` from `proof-verify/src/lib.rs`. -/
inductive Groth16Error where
  | IncompatibleVerifyingKeyWithNrPublicInputs
  | ProofVerificationFailed
  | PairingVerificationError
  | PreparingInputsG1AdditionFailed
  | PreparingInputsG1MulFailed
  | InvalidG1Length
  | InvalidG2Length
  | InvalidPublicInputsLength
  | DecompressingG1Failed
  | DecompressingG2Failed
  | PublicInputGreaterThenFieldSize
deriving DecidableEq

/-- `Groth16VerifyingKeyPrepared`: the fixed-size verifying-key parts. -/
structure Groth16VerifyingKeyPrepared where
  vk_alpha_g1 : ByteArray32 64
  vk_beta_g2 : ByteArray32 128
  vk_gamma_g2 : ByteArray32 128
  vk_delta_g2 : ByteArray32 128

/-- `Groth16VerifierPrepared`: proof bytes, prepared public input and
verifying key, as stored after the length-checked constructor. -/
structure Groth16VerifierPrepared where
  proof_a : ByteArray32 64
  proof_b : ByteArray32 128
  proof_c : ByteArray32 64
  prepared_public_inputs : ByteArray32 64
  verifying_key : Groth16VerifyingKeyPrepared

/-- `Groth16VerifierPrepared::new`: enforces the exact byte lengths
64/128/64/64, in source order, before storing the arrays. -/
def Groth16VerifierPrepared.new (proof_a proof_b proof_c prepared_public_inputs : List Nat)
    (verifying_key : Groth16VerifyingKeyPrepared) :
    Except Groth16Error Groth16VerifierPrepared :=
  if ha : proof_a.length = 64 then
    if hb : proof_b.length = 128 then
      if hc : proof_c.length = 64 then
        if hi : prepared_public_inputs.length = 64 then
          .ok ⟨⟨proof_a, ha⟩, ⟨proof_b, hb⟩, ⟨proof_c, hc⟩,
            ⟨prepared_public_inputs, hi⟩, verifying_key⟩
        else .error .InvalidPublicInputsLength
      else .error .InvalidG1Length
    else .error .InvalidG2Length
  else .error .InvalidG1Length

/-- The flat `pairing_input` buffer concatenated inside
`Groth16VerifierPrepared::verify`, in the exact order of the source. -/
def pairingInput (v : Groth16VerifierPrepared) : List Nat :=
  v.proof_a.val ++ v.proof_b.val ++ v.prepared_public_inputs.val ++
    v.verifying_key.vk_gamma_g2.val ++ v.proof_c.val ++
    v.verifying_key.vk_delta_g2.val ++ v.verifying_key.vk_alpha_g1.val ++
    v.verifying_key.vk_beta_g2.val

/-- `Groth16VerifierPrepared::verify`: hands the flat buffer to the external
alt_bn128 pairing primitive (`invoke`, an injected host capability whose
outcome is success or failure), maps any failure to
`PairingVerificationError`, and returns `true` on success. -/
def Groth16VerifierPrepared.verify (invoke : List Nat → Except Unit Unit)
    (v : Groth16VerifierPrepared) : Except Groth16Error Bool :=
  match invoke (pairingInput v) with
  | .ok _ => .ok true
  | .error _ => .error .PairingVerificationError

/-! ## R1CS constraint system (`ark-relations` surface used by `circuit.rs`) -/

/-- An R1CS variable: the constant one, an instance (public-input) variable,
or a witness (private) variable, as in `ark_relations::r1cs::Variable`. -/
inductive RVar where
  | one : RVar
  | inst : Nat → RVar
  | wit : Nat → RVar
deriving DecidableEq

/-- Whether a variable is a witness (private) variable. -/
def RVar.isWitnessVar : RVar → Bool
  | .wit _ => true
  | _ => false

/-- Whether a variable is an instance (public-input) variable. -/
def RVar.isInstanceVar : RVar → Bool
  | .inst _ => true
  | _ => false

/-- A linear combination: a list of (coefficient, variable) terms over the
scalar field. -/
def LinComb := List (Nat × RVar)

/-- The accumulating constraint system: variable counters (the instance
counter starts at 1 for the implicit constant-one variable), the assignments
made by the `|| Ok(value)` closures, and the enforced `a * b = c`
constraints. -/
structure R1CS where
  numInstance : Nat
  numWitness : Nat
  instAssignment : List Nat
  witAssignment : List Nat
  constraints : List (LinComb × LinComb × LinComb)

/-- A fresh constraint system: one instance variable (the constant one)
assigned the value 1, no witnesses, no constraints. -/
def R1CS.init : R1CS := ⟨1, 0, [1], [], []⟩

/-- `cs.new_input_variable(|| Ok(v))`: allocates the next instance variable
and records its assignment. -/
def R1CS.newInput (cs : R1CS) (v : Nat) : R1CS × RVar :=
  (⟨cs.numInstance + 1, cs.numWitness, cs.instAssignment ++ [v],
    cs.witAssignment, cs.constraints⟩, .inst cs.numInstance)

/-- `cs.new_witness_variable(|| Ok(v))`: allocates the next witness variable
and records its assignment. -/
def R1CS.newWitness (cs : R1CS) (v : Nat) : R1CS × RVar :=
  (⟨cs.numInstance, cs.numWitness + 1, cs.instAssignment,
    cs.witAssignment ++ [v], cs.constraints⟩, .wit cs.numWitness)

/-- `cs.enforce_constraint(a, b, c)`: appends the constraint `a * b = c`. -/
def R1CS.enforce (cs : R1CS) (a b c : LinComb) : R1CS :=
  ⟨cs.numInstance, cs.numWitness, cs.instAssignment, cs.witAssignment,
    cs.constraints ++ [(a, b, c)]⟩

/-- The value a variable holds under the recorded assignments. -/
def R1CS.evalVar (cs : R1CS) : RVar → Nat
  | .one => 1
  | .inst i => cs.instAssignment.getD i 0
  | .wit i => cs.witAssignment.getD i 0

/-- The field value of a linear combination under the recorded
assignments. -/
def R1CS.evalLC (cs : R1CS) (lc : LinComb) : Nat :=
  lc.foldl (fun acc t => (acc + t.1 * cs.evalVar t.2) % frModulus) 0

/-- Whether one `a * b = c` constraint holds under the assignments. -/
def R1CS.constraintHolds (cs : R1CS) (t : LinComb × LinComb × LinComb) : Bool :=
  (cs.evalLC t.1 * cs.evalLC t.2.1) % frModulus == cs.evalLC t.2.2

/-- `cs.is_satisfied()`: every enforced constraint holds under the recorded
assignments. -/
def R1CS.satisfiedAll (cs : R1CS) : Bool :=
  cs.constraints.all cs.constraintHolds

/-! ## Inequality circuits (`circuit.rs`) -/

/-- `CircuitError` from `circuit.rs`. -/
inductive CircuitError where
  | MissingAssignment
  | InvalidRange
deriving DecidableEq

/-- `SynthesisError` (the variant this code produces). -/
inductive SynthesisError where
  | AssignmentMissing
deriving DecidableEq

/-- `ExampleCircuit`: optional prover/verifier field values and the
range-check flag. -/
structure ExampleCircuit where
  prover_value : Option Nat
  verifier_value : Option Nat
  range_check : Bool

/-- `ExampleCircuit::new(x, y)`: rejects inputs `≥ 2^32` with
`InvalidRange`; otherwise stores `Fr::from(x)` and `Fr::from(y)` with range
checking enabled.  `x` and `y` stand for `u64` arguments. -/
def ExampleCircuit.new (x y : Nat) : Except CircuitError ExampleCircuit :=
  if 4294967296 ≤ x ∨ 4294967296 ≤ y then .error .InvalidRange
  else .ok ⟨some (x % frModulus), some (y % frModulus), true⟩

/-- `ExampleCircuit::public_inputs`: both values serialized, or
`MissingAssignment` when either is unset. -/
def ExampleCircuit.public_inputs (c : ExampleCircuit) :
    Except CircuitError (List (List Nat)) :=
  match c.prover_value, c.verifier_value with
  | some x, some y => .ok [field_to_bytes x, field_to_bytes y]
  | _, _ => .error .MissingAssignment

/-- `TokenVerificationCircuit`: private `tokens_to_send` and public
`tokens_asked`. -/
structure TokenVerificationCircuit where
  tokens_to_send : Option Nat
  tokens_asked : Option Nat

/-- `TokenVerificationCircuit::new`: rejects inputs `≥ 2^32` with
`InvalidRange`, otherwise stores both field values. -/
def TokenVerificationCircuit.new (tokens_to_send tokens_asked : Nat) :
    Except CircuitError TokenVerificationCircuit :=
  if 4294967296 ≤ tokens_to_send ∨ 4294967296 ≤ tokens_asked then
    .error .InvalidRange
  else .ok ⟨some (tokens_to_send % frModulus), some (tokens_asked % frModulus)⟩

/-- `TokenVerificationCircuit::public_inputs`: matches only on
`tokens_asked`; `tokens_to_send` is not consulted. -/
def TokenVerificationCircuit.public_inputs (c : TokenVerificationCircuit) :
    Except CircuitError (List (List Nat)) :=
  match c.tokens_asked with
  | some tokens_asked => .ok [field_to_bytes tokens_asked]
  | none => .error .MissingAssignment

/-- The 32-iteration range-check loop shared verbatim by the `generate_constraints` of both circuits: for each bit index, allocate the bit witness,
enforce `bit * bit = bit`, allocate `bit_contribution = 2^i * bit` and
enforce it, then allocate the running accumulator and enforce
`new_acc = prev_acc + bit_contribution`.  `d` is the difference value whose
bits are taken, `i` the current bit index, `fuel` the remaining
iterations. -/
def rangeCheckLoop (d : Nat) : Nat → Nat → Nat → RVar → R1CS → R1CS × RVar
  | _, 0, _, prevAccVar, cs => (cs, prevAccVar)
  | i, fuel + 1, acc, prevAccVar, cs =>
    let bitVal : Nat := if d.testBit i then 1 else 0
    let s1 := cs.newWitness bitVal
    let cs := s1.1
    let bitVar := s1.2
    let cs := cs.enforce [(1, bitVar)] [(1, bitVar)] [(1, bitVar)]
    let power := 2 ^ i % frModulus
    let contribVal := bitVal * power % frModulus
    let s2 := cs.newWitness contribVal
    let cs := s2.1
    let contribVar := s2.2
    let cs := cs.enforce [(power, RVar.one)] [(1, bitVar)] [(1, contribVar)]
    let acc2 := (acc + power * bitVal) % frModulus
    let s3 := cs.newWitness acc2
    let cs := s3.1
    let newAccVar := s3.2
    let cs := cs.enforce [(1, prevAccVar), (1, contribVar)] [(1, RVar.one)]
      [(1, newAccVar)]
    rangeCheckLoop d (i + 1) fuel acc2 newAccVar cs

/-- Output of `ExampleCircuit::generate_constraints`: the finished system
and the variables allocated for the two compared values. -/
structure ExampleSynthOut where
  cs : R1CS
  xVar : RVar
  yVar : RVar

/-- `ExampleCircuit::generate_constraints`: allocates `x` and `y` (both via
`new_input_variable`), the negated-`y` and difference witnesses with their
constraints, and — when `range_check` is set — the 32-bit decomposition of
`d` with the final accumulator-equality constraint. -/
def ExampleCircuit.generate_constraints (c : ExampleCircuit) :
    Except SynthesisError ExampleSynthOut :=
  match c.prover_value, c.verifier_value with
  | some x, some y =>
    let cs := R1CS.init
    let s1 := cs.newInput x
    let cs := s1.1
    let xVar := s1.2
    let s2 := cs.newInput y
    let cs := s2.1
    let yVar := s2.2
    let negOne := frModulus - 1
    let s3 := cs.newWitness (negOne * y % frModulus)
    let cs := s3.1
    let negYVar := s3.2
    let cs := cs.enforce [(negOne, yVar)] [(1, RVar.one)] [(1, negYVar)]
    let d := (x + negOne * y) % frModulus
    let s4 := cs.newWitness d
    let cs := s4.1
    let dVar := s4.2
    let cs := cs.enforce [(1, xVar), (1, negYVar)] [(1, RVar.one)] [(1, dVar)]
    if c.range_check then
      let s5 := cs.newWitness 0
      let cs := s5.1
      let acc0Var := s5.2
      let s6 := rangeCheckLoop d 0 32 0 acc0Var cs
      let cs := (s6.1).enforce [(1, dVar)] [(1, RVar.one)] [(1, s6.2)]
      .ok ⟨cs, xVar, yVar⟩
    else
      .ok ⟨cs, xVar, yVar⟩
  | _, _ => .error .AssignmentMissing

/-- Output of `TokenVerificationCircuit::generate_constraints`: the finished
system and the variables allocated for the two compared values. -/
structure TokenSynthOut where
  cs : R1CS
  sendVar : RVar
  askedVar : RVar

/-- `TokenVerificationCircuit::generate_constraints`: `tokens_to_send` is
allocated via `new_witness_variable`, `tokens_asked` via
`new_input_variable`; then the same negation, difference and unconditional
32-bit range-check constraints as the example circuit. -/
def TokenVerificationCircuit.generate_constraints (c : TokenVerificationCircuit) :
    Except SynthesisError TokenSynthOut :=
  match c.tokens_to_send, c.tokens_asked with
  | some tokensToSend, some tokensAsked =>
    let cs := R1CS.init
    let s1 := cs.newWitness tokensToSend
    let cs := s1.1
    let sendVar := s1.2
    let s2 := cs.newInput tokensAsked
    let cs := s2.1
    let askedVar := s2.2
    let negOne := frModulus - 1
    let s3 := cs.newWitness (negOne * tokensAsked % frModulus)
    let cs := s3.1
    let negAskedVar := s3.2
    let cs := cs.enforce [(negOne, askedVar)] [(1, RVar.one)] [(1, negAskedVar)]
    let d := (tokensToSend + negOne * tokensAsked) % frModulus
    let s4 := cs.newWitness d
    let cs := s4.1
    let dVar := s4.2
    let cs := cs.enforce [(1, sendVar), (1, negAskedVar)] [(1, RVar.one)] [(1, dVar)]
    let s5 := cs.newWitness 0
    let cs := s5.1
    let acc0Var := s5.2
    let s6 := rangeCheckLoop d 0 32 0 acc0Var cs
    let cs := (s6.1).enforce [(1, dVar)] [(1, RVar.one)] [(1, s6.2)]
    .ok ⟨cs, sendVar, askedVar⟩
  | _, _ => .error .AssignmentMissing

/-! ## Prover pipeline (`prove.rs`) -/

/-- `ProofError` from `prove.rs`. -/
inductive ProofError where
  | InvalidPublicInput : String → ProofError
  | InvalidProvingKey
  | CircuitValidationFailed
  | ProofGenerationFailed
deriving DecidableEq

/-- `validate_public_input`: decodes 32 bytes into a canonical field element
(`bytes_to_field`), then re-checks the value against the modulus. -/
def validate_public_input (input : List Nat) : Except ProofError Nat :=
  match bytes_to_field input with
  | .error _ =>
      .error (.InvalidPublicInput "Failed to convert bytes to field element")
  | .ok fieldElement =>
      if frModulus ≤ fieldElement then
        .error (.InvalidPublicInput "Input exceeds field characteristic")
      else .ok fieldElement

/-- Modelled from the spec: the external Groth16 proving algorithm
(`Groth16::<Bn254>::prove` of `ark-groth16`, not part of the sources of this repository).  Per §4.2 step 5 and §7 of the spec, proving over a
witness-assigned circuit may fail or panic if the witness is
constraint-inconsistent and never silently accepts an invalid
inequality: it is modelled as succeeding exactly when the synthesized
assignment satisfies every constraint, with the panic rendered as
`ProofGenerationFailed`. -/
def groth16Prove (cs : R1CS) : Except ProofError Unit :=
  if cs.satisfiedAll then .ok () else .error .ProofGenerationFailed

/-- `generate_proof_package` (`prove.rs`), with the circuit represented by
its synthesis outcome `synthRes` (the Rust code synthesizes the same
deterministic constraint system in `validate_proving_key`, in the
public-input count check, and inside proving) and the proving key by
`aQueryLen` (the length of its `a_query` vector, the only part the code
consults): validates the proving key (constraints synthesizable and
`a_query` non-empty), decodes and validates each public input, checks the
input count against `num_instance_variables - 1`, then runs the proving
algorithm. -/
def generate_proof_package (aQueryLen : Nat)
    (synthRes : Except SynthesisError R1CS) (publicInputs : List (List Nat)) :
    Except ProofError Unit :=
  match synthRes with
  | .error _ => .error .CircuitValidationFailed
  | .ok cs =>
    if aQueryLen = 0 then .error .InvalidProvingKey
    else
      match publicInputs.mapM validate_public_input with
      | .error e => .error e
      | .ok fieldInputs =>
        if fieldInputs.length ≠ cs.numInstance - 1 then
          .error (.InvalidPublicInput
            "Number of public inputs does not match circuit")
        else groth16Prove cs

/-! ## General verifier (`verify.rs`) -/

/-- `VerificationError` from `verify.rs`. -/
inductive VerificationError where
  | InvalidProof
  | InvalidPublicInput
  | VerificationFailed
deriving DecidableEq

/-- A G1 point abstracted by the two `ark-ec` library predicates the
repository consults: `is_on_curve` and
`is_in_correct_subgroup_assuming_on_curve`. -/
structure G1Flags where
  onCurve : Bool
  inSubgroup : Bool

/-- A G2 point, abstracted the same way. -/
structure G2Flags where
  onCurve : Bool
  inSubgroup : Bool

/-- The three curve points of a Groth16 proof `(a, b, c)`. -/
structure ProofPoints where
  a : G1Flags
  b : G2Flags
  c : G1Flags

/-- `is_valid_point`: on-curve and in the correct subgroup. -/
def is_valid_point (pt : G1Flags) : Bool :=
  pt.onCurve && pt.inSubgroup

/-- `is_valid_proof`: each of the three proof points is on-curve and in the
correct subgroup, checked in source order. -/
def is_valid_proof (pr : ProofPoints) : Bool :=
  pr.a.onCurve && pr.a.inSubgroup &&
  pr.b.onCurve && pr.b.inSubgroup &&
  pr.c.onCurve && pr.c.inSubgroup

/-- `verify` (`verify.rs`): rejects an invalid prepared public-input point
with `InvalidPublicInput`, then an invalid proof with `InvalidProof`, and
otherwise returns the outcome of
`Groth16::verify_proof_with_prepared_inputs` — an external library
capability injected as `pairing`, whose failure is mapped to
`VerificationFailed`. -/
def generalVerify (pairing : Except Unit Bool) (proof : ProofPoints)
    (publicInput : G1Flags) : Except VerificationError Bool :=
  if is_valid_point publicInput = false then .error .InvalidPublicInput
  else if is_valid_proof proof = false then .error .InvalidProof
  else
    match pairing with
    | .ok b => .ok b
    | .error _ => .error .VerificationFailed

/-! ## Shared byte constants for concrete instances -/

/-- An all-zero byte list of length `n`. -/
def zeroBytes (n : Nat) : List Nat := List.replicate n 0

/-- A concrete all-zero prepared verifying key. -/
def vkZero : Groth16VerifyingKeyPrepared :=
  ⟨⟨zeroBytes 64, by simp [zeroBytes]⟩, ⟨zeroBytes 128, by simp [zeroBytes]⟩,
    ⟨zeroBytes 128, by simp [zeroBytes]⟩, ⟨zeroBytes 128, by simp [zeroBytes]⟩⟩

/-- A concrete accepted `Groth16VerifierPrepared` built from all-zero
buffers of the correct lengths. -/
def verifierZero : Groth16VerifierPrepared :=
  ⟨⟨zeroBytes 64, by simp [zeroBytes]⟩, ⟨zeroBytes 128, by simp [zeroBytes]⟩,
    ⟨zeroBytes 64, by simp [zeroBytes]⟩, ⟨zeroBytes 64, by simp [zeroBytes]⟩,
    vkZero⟩

/-! ## Helper lemmas on the endianness conversion -/

/-- On four bytes, `swap_bytes` of the little-endian value yields the
big-endian value. -/
theorem u32SwapBytes_fromLe (b0 b1 b2 b3 : Nat) (h0 : b0 < 256) (h1 : b1 < 256)
    (h2 : b2 < 256) (h3 : b3 < 256) :
    u32SwapBytes (u32FromLeBytes b0 b1 b2 b3) =
      b0 * 16777216 + b1 * 65536 + b2 * 256 + b3 := by
  simp only [u32SwapBytes, u32FromLeBytes]
  have e0 : (b0 + 256 * b1 + 65536 * b2 + 16777216 * b3) % 256 = b0 := by omega
  have e1 : (b0 + 256 * b1 + 65536 * b2 + 16777216 * b3) / 256 % 256 = b1 := by
    omega
  have e2 : (b0 + 256 * b1 + 65536 * b2 + 16777216 * b3) / 65536 % 256 = b2 := by
    omega
  have e3 : (b0 + 256 * b1 + 65536 * b2 + 16777216 * b3) / 16777216 % 256 = b3 := by
    omega
  rw [e0, e1, e2, e3]

/-- `to_be_bytes` of a big-endian-assembled value returns the original
bytes. -/
theorem u32ToBeBytes_assembled (b0 b1 b2 b3 : Nat) (h0 : b0 < 256)
    (h1 : b1 < 256) (h2 : b2 < 256) (h3 : b3 < 256) :
    u32ToBeBytes (b0 * 16777216 + b1 * 65536 + b2 * 256 + b3) =
      [b0, b1, b2, b3] := by
  simp only [u32ToBeBytes, List.cons.injEq, and_true]
  refine ⟨?_, ?_, ?_, ?_⟩ <;> omega

/-- The loop body of `convert_endianness` — `from_le_bytes`, `swap_bytes`,
`to_be_bytes` — is the identity on one 4-byte chunk. -/
theorem convertChunk_id (b0 b1 b2 b3 : Nat) (h0 : b0 < 256) (h1 : b1 < 256)
    (h2 : b2 < 256) (h3 : b3 < 256) :
    u32ToBeBytes (u32SwapBytes (u32FromLeBytes b0 b1 b2 b3)) = [b0, b1, b2, b3] := by
  rw [u32SwapBytes_fromLe b0 b1 b2 b3 h0 h1 h2 h3,
    u32ToBeBytes_assembled b0 b1 b2 b3 h0 h1 h2 h3]

/-- `convertChunks` is the identity on byte lists whose length is a multiple
of 4. -/
theorem convertChunks_eq_self (l : List Nat) (hb : ∀ b ∈ l, b < 256)
    (h4 : l.length % 4 = 0) : convertChunks l = l := by
  induction l using convertChunks.induct with
  | case1 b0 b1 b2 b3 rest ih =>
    have hr : rest.length % 4 = 0 := by
      simp only [List.length_cons] at h4
      omega
    have hb0 : b0 < 256 := hb b0 (by simp)
    have hb1 : b1 < 256 := hb b1 (by simp)
    have hb2 : b2 < 256 := hb b2 (by simp)
    have hb3 : b3 < 256 := hb b3 (by simp)
    have hbr : ∀ b ∈ rest, b < 256 := fun b hbm => hb b (by simp [hbm])
    rw [convertChunks, convertChunk_id b0 b1 b2 b3 hb0 hb1 hb2 hb3, ih hbr hr]
    rfl
  | case2 t hno =>
    match t, hno with
    | [], _ => rfl
    | [a], h => simp at h4
    | [a, b], h => simp at h4
    | [a, b, c], h => simp at h4
    | a :: b :: c :: d :: rest, h => exact absurd rfl (h a b c d rest)

/-- With equal sizes that are multiples of 4 and a byte list of that length,
`convert_endianness` succeeds and returns its input unchanged. -/
theorem convert_endianness_self (n : Nat) (input : List Nat)
    (hlen : input.length = n) (hb : ∀ b ∈ input, b < 256) (h4 : n % 4 = 0) :
    convert_endianness n n input = .ok input := by
  unfold convert_endianness
  rw [if_pos ⟨h4, h4⟩]
  have hmin : min n n = n := Nat.min_self n
  rw [hmin, Nat.sub_self, List.replicate_zero, List.append_nil, ← hlen,
    List.take_length, convertChunks_eq_self input hb (hlen ▸ h4)]

/-! ## Claims C9 and C10: endianness conversion -/

/-- C10: for every byte buffer whose length is a multiple of 4, a single
application of `convert_endianness` with equal IN and OUT sizes returns the
input buffer unchanged — the per-chunk sequence `from_le_bytes`,
`swap_bytes`, `to_be_bytes` composes to the identity, so the operation
performs no byte reordering at all. -/
theorem claim_C10 (n : Nat) (input : List Nat) (hlen : input.length = n)
    (hb : ∀ b ∈ input, b < 256) (h4 : n % 4 = 0) :
    convert_endianness n n input = .ok input :=
  convert_endianness_self n input hlen hb h4

/-- Witness for C10 at the concrete buffer `[1, 2, 3, 4]`. -/
theorem claim_C10_witness : convert_endianness 4 4 [1, 2, 3, 4] = .ok [1, 2, 3, 4] :=
  claim_C10 4 [1, 2, 3, 4] rfl (by decide) (by decide)

/-- C9: for every byte buffer `b` whose length is a multiple of 4, applying
`convert_endianness` twice with matching IN/OUT sizes returns the original
buffer. -/
theorem claim_C9 (n : Nat) (input : List Nat) (hlen : input.length = n)
    (hb : ∀ b ∈ input, b < 256) (h4 : n % 4 = 0) :
    (convert_endianness n n input).bind (convert_endianness n n) = .ok input := by
  rw [convert_endianness_self n input hlen hb h4]
  exact convert_endianness_self n input hlen hb h4

/-- Witness for C9 at the concrete buffer `[5, 6, 7, 8]`. -/
theorem claim_C9_witness :
    (convert_endianness 4 4 [5, 6, 7, 8]).bind (convert_endianness 4 4) =
      .ok [5, 6, 7, 8] :=
  claim_C9 4 [5, 6, 7, 8] rfl (by decide) (by decide)

/-! ## Claim C1: prepared verifier result mapping -/

/-- C1 counterexample: when the external pairing primitive reports failure —
which is how an unsatisfied pairing product reaches this code, since the
invoked program signals it as an unsuccessful invocation — `verify` does not
return the boolean `false`: it returns `Err(PairingVerificationError)`.  So
`verify` does not return the boolean result of the primitive. -/
theorem claim_C1_counterexample :
    Groth16VerifierPrepared.verify (fun _ => .error ()) verifierZero =
      .error .PairingVerificationError ∧
    Groth16VerifierPrepared.verify (fun _ => .error ()) verifierZero ≠
      .ok false :=
  ⟨rfl, fun h => Except.noConfusion h⟩

/-- C1 (amended): for every accepted input, `verify` returns `Ok(true)`
when the external primitive succeeds and maps every primitive failure
(transport, computation, or an unsatisfied pairing product) to
`PairingVerificationError`; it never returns `Ok(false)`, and never reports
success unless the primitive reported success. -/
theorem claim_C1 (invoke : List Nat → Except Unit Unit)
    (v : Groth16VerifierPrepared) :
    ((invoke (pairingInput v)).isOk = true →
      Groth16VerifierPrepared.verify invoke v = .ok true) ∧
    ((invoke (pairingInput v)).isOk = false →
      Groth16VerifierPrepared.verify invoke v =
        .error .PairingVerificationError) ∧
    Groth16VerifierPrepared.verify invoke v ≠ .ok false := by
  cases h : invoke (pairingInput v) with
  | ok u =>
    refine ⟨fun _ => ?_, fun hc => ?_, fun hc => ?_⟩
    · simp [Groth16VerifierPrepared.verify, h]
    · simp [Except.isOk, Except.toBool, h] at hc
    · simp [Groth16VerifierPrepared.verify, h] at hc
  | error e =>
    refine ⟨fun hc => ?_, fun _ => ?_, fun hc => ?_⟩
    · simp [Except.isOk, Except.toBool, h] at hc
    · simp [Groth16VerifierPrepared.verify, h]
    · simp [Groth16VerifierPrepared.verify, h] at hc

/-- Witness for C1 with a succeeding primitive at a concrete input. -/
theorem claim_C1_witness :
    Groth16VerifierPrepared.verify (fun _ => .ok ()) verifierZero = .ok true :=
  (claim_C1 (fun _ => .ok ()) verifierZero).1 rfl

/-! ## Claim C3: pairing buffer layout -/

/-- C3 counterexample: at a concrete accepted input the buffer handed to the
pairing primitive has length 768 (= 4·64 + 4·128), not 832 as the claim
states. -/
theorem claim_C3_counterexample :
    (pairingInput verifierZero).length = 768 ∧
    (pairingInput verifierZero).length ≠ 832 := by
  have h : (pairingInput verifierZero).length = 768 := by
    simp [pairingInput, verifierZero, vkZero, zeroBytes]
  exact ⟨h, by omega⟩

/-- C3 (amended): for every accepted `PreparedVerifierInput`, the buffer
handed to the external pairing primitive is exactly the concatenation, in
this order, of proof_A (64 bytes), proof_B (128), prepared_public_input
(64), vk_gamma (128), proof_C (64), vk_delta (128), vk_alpha (64), vk_beta
(128), for a total of exactly 768 bytes. -/
theorem claim_C3 (a b c i : List Nat) (vk : Groth16VerifyingKeyPrepared)
    (v : Groth16VerifierPrepared)
    (h : Groth16VerifierPrepared.new a b c i vk = .ok v) :
    pairingInput v =
      a ++ b ++ i ++ vk.vk_gamma_g2.val ++ c ++ vk.vk_delta_g2.val ++
        vk.vk_alpha_g1.val ++ vk.vk_beta_g2.val ∧
    (pairingInput v).length = 768 := by
  unfold Groth16VerifierPrepared.new at h
  by_cases ha : a.length = 64
  · by_cases hb : b.length = 128
    · by_cases hc : c.length = 64
      · by_cases hi : i.length = 64
        · rw [dif_pos ha, dif_pos hb, dif_pos hc, dif_pos hi] at h
          cases h
          refine ⟨rfl, ?_⟩
          have hga := vk.vk_gamma_g2.property
          have hde := vk.vk_delta_g2.property
          have hal := vk.vk_alpha_g1.property
          have hbe := vk.vk_beta_g2.property
          simp [pairingInput, ha, hb, hc, hi, hga, hde, hal, hbe]
        · rw [dif_pos ha, dif_pos hb, dif_pos hc, dif_neg hi] at h
          exact Except.noConfusion h
      · rw [dif_pos ha, dif_pos hb, dif_neg hc] at h
        exact Except.noConfusion h
    · rw [dif_pos ha, dif_neg hb] at h
      exact Except.noConfusion h
  · rw [dif_neg ha] at h
    exact Except.noConfusion h

/-- Witness for C3 at concrete all-zero buffers. -/
theorem claim_C3_witness :
    pairingInput verifierZero =
      zeroBytes 64 ++ zeroBytes 128 ++ zeroBytes 64 ++ zeroBytes 128 ++
        zeroBytes 64 ++ zeroBytes 128 ++ zeroBytes 64 ++ zeroBytes 128 ∧
    (pairingInput verifierZero).length = 768 := by
  have h := claim_C3 (zeroBytes 64) (zeroBytes 128) (zeroBytes 64)
    (zeroBytes 64) vkZero verifierZero (by rfl)
  exact ⟨h.1, h.2⟩

/-! ## Claim C6: prepared verifier constructor length checks -/

/-- C6: for all input byte slices, the `Groth16VerifierPrepared` constructor
succeeds if and only if proof_a has length 64, proof_b length 128, proof_c
length 64, and prepared_public_inputs length 64; otherwise it fails before
any pairing call with `InvalidG1Length` (for proof_a, or for proof_c once
the earlier fields pass), `InvalidG2Length` (for proof_b once proof_a
passes), or `InvalidPublicInputsLength` (for the prepared input once the
proof fields pass). -/
theorem claim_C6 (a b c i : List Nat) (vk : Groth16VerifyingKeyPrepared) :
    ((Groth16VerifierPrepared.new a b c i vk).isOk = true ↔
      a.length = 64 ∧ b.length = 128 ∧ c.length = 64 ∧ i.length = 64) ∧
    (a.length ≠ 64 →
      Groth16VerifierPrepared.new a b c i vk = .error .InvalidG1Length) ∧
    (a.length = 64 → b.length ≠ 128 →
      Groth16VerifierPrepared.new a b c i vk = .error .InvalidG2Length) ∧
    (a.length = 64 → b.length = 128 → c.length ≠ 64 →
      Groth16VerifierPrepared.new a b c i vk = .error .InvalidG1Length) ∧
    (a.length = 64 → b.length = 128 → c.length = 64 → i.length ≠ 64 →
      Groth16VerifierPrepared.new a b c i vk =
        .error .InvalidPublicInputsLength) := by
  by_cases ha : a.length = 64 <;> by_cases hb : b.length = 128 <;>
    by_cases hc : c.length = 64 <;> by_cases hi : i.length = 64 <;>
    simp [Groth16VerifierPrepared.new, ha, hb, hc, hi, Except.isOk, Except.toBool]

/-- Witness for C6: a 63-byte proof_a buffer is rejected with
`InvalidG1Length` before any pairing call. -/
theorem claim_C6_witness :
    Groth16VerifierPrepared.new (zeroBytes 63) (zeroBytes 128) (zeroBytes 64)
      (zeroBytes 64) vkZero = .error .InvalidG1Length :=
  (claim_C6 (zeroBytes 63) (zeroBytes 128) (zeroBytes 64) (zeroBytes 64)
    vkZero).2.1 (by simp [zeroBytes])

/-! ## Claim C2: proving fails for prover_value 500 against public_value 1000 -/

/-- C2: for the circuit built from prover_value = 500 and public_value =
1000, circuit construction and constraint generation succeed, but the
synthesized witness violates the 32-bit accumulator-equality constraint
(the difference is negative modulo the field), so `generate_proof_package`
fails for every proving key and every public-input list — it never returns
a successfully generated proof package for this input. -/
theorem claim_C2 :
    ExampleCircuit.new 500 1000 = .ok ⟨some 500, some 1000, true⟩ ∧
    (ExampleCircuit.generate_constraints ⟨some 500, some 1000, true⟩).isOk = true ∧
    (ExampleCircuit.generate_constraints ⟨some 500, some 1000, true⟩).map
      (fun o => o.cs.satisfiedAll) = .ok false ∧
    ∀ (aQueryLen : Nat) (pubs : List (List Nat)),
      (generate_proof_package aQueryLen
        ((ExampleCircuit.generate_constraints ⟨some 500, some 1000, true⟩).map
          (fun o => o.cs)) pubs).isOk = false := by
  refine ⟨rfl, rfl, rfl, ?_⟩
  intro aQueryLen pubs
  cases hs : (ExampleCircuit.generate_constraints ⟨some 500, some 1000, true⟩).map
      (fun o => o.cs) with
  | error e => simp [generate_proof_package, Except.isOk, Except.toBool]
  | ok cs =>
    have hfact : ((ExampleCircuit.generate_constraints
        ⟨some 500, some 1000, true⟩).map (fun o => o.cs)).map R1CS.satisfiedAll =
        .ok false := rfl
    rw [hs] at hfact
    have hsat : cs.satisfiedAll = false := by
      simpa [Except.map] using hfact
    simp only [generate_proof_package]
    by_cases haq : aQueryLen = 0
    · simp [haq, Except.isOk, Except.toBool]
    · rw [if_neg haq]
      cases hm : pubs.mapM validate_public_input with
      | error e => simp [Except.isOk, Except.toBool]
      | ok fieldInputs =>
        by_cases hlen : fieldInputs.length = cs.numInstance - 1
        · simp [hlen, groth16Prove, hsat, Except.isOk, Except.toBool]
        · simp [hlen, Except.isOk, Except.toBool]

/-! ## Claim C4: which compared value is witness, which is instance -/

/-- C4 counterexample: in `ExampleCircuit` at prover_value = 1, public_value
= 0, neither compared value is allocated as a witness variable — both are
public instance variables — refuting that exactly one of the two is a
private witness and the other a public instance. -/
theorem claim_C4_counterexample :
    (ExampleCircuit.generate_constraints ⟨some 1, some 0, true⟩).map
      (fun o => Bool.xor o.xVar.isWitnessVar o.yVar.isWitnessVar) = .ok false ∧
    (ExampleCircuit.generate_constraints ⟨some 1, some 0, true⟩).map
      (fun o => o.xVar.isInstanceVar && o.yVar.isInstanceVar) = .ok true :=
  ⟨rfl, rfl⟩

/-- C4 (amended): in the token variant, tokens_to_send is allocated as a
private witness variable and tokens_asked as a public instance variable,
and `public_inputs` exposes exactly the serialized public-side value
`tokens_asked` — nothing else — with its count matching the
instance-variable count (2) minus the implicit constant-one variable; in
`ExampleCircuit`, however, both compared values are allocated as public
instance variables, and `public_inputs` exposes exactly those two values in
declaration order, again matching the instance-variable count (3) minus
one. -/
theorem claim_C4 (x y : Nat) :
    (TokenVerificationCircuit.generate_constraints ⟨some x, some y⟩).map
      (fun o => (o.sendVar.isWitnessVar, o.askedVar.isInstanceVar)) =
      .ok (true, true) ∧
    (TokenVerificationCircuit.generate_constraints ⟨some x, some y⟩).map
      (fun o => o.cs.numInstance) = .ok 2 ∧
    TokenVerificationCircuit.public_inputs ⟨some x, some y⟩ =
      .ok [field_to_bytes y] ∧
    (TokenVerificationCircuit.public_inputs ⟨some x, some y⟩).map List.length =
      .ok (2 - 1) ∧
    (ExampleCircuit.generate_constraints ⟨some x, some y, true⟩).map
      (fun o => (o.xVar.isInstanceVar, o.yVar.isInstanceVar)) = .ok (true, true) ∧
    (ExampleCircuit.generate_constraints ⟨some x, some y, true⟩).map
      (fun o => o.cs.numInstance) = .ok 3 ∧
    ExampleCircuit.public_inputs ⟨some x, some y, true⟩ =
      .ok [field_to_bytes x, field_to_bytes y] ∧
    (ExampleCircuit.public_inputs ⟨some x, some y, true⟩).map List.length =
      .ok (3 - 1) :=
  ⟨rfl, rfl, rfl, rfl, rfl, rfl, rfl, rfl⟩

/-! ## Claim C7: constructor range validation -/

/-- C7: for all u64 inputs x and y, both circuit constructors fail with
`InvalidRange` exactly when x ≥ 2^32 or y ≥ 2^32, and succeed when both
inputs are at most 2^32 − 1. -/
theorem claim_C7 (x y : Nat) (hx : x < 18446744073709551616)
    (hy : y < 18446744073709551616) :
    (ExampleCircuit.new x y = .error .InvalidRange ↔
      4294967296 ≤ x ∨ 4294967296 ≤ y) ∧
    ((ExampleCircuit.new x y).isOk = true ↔
      x < 4294967296 ∧ y < 4294967296) ∧
    (TokenVerificationCircuit.new x y = .error .InvalidRange ↔
      4294967296 ≤ x ∨ 4294967296 ≤ y) ∧
    ((TokenVerificationCircuit.new x y).isOk = true ↔
      x < 4294967296 ∧ y < 4294967296) := by
  by_cases hcond : 4294967296 ≤ x ∨ 4294967296 ≤ y <;>
    simp [ExampleCircuit.new, TokenVerificationCircuit.new, hcond, Except.isOk,
      Except.toBool] <;> omega

/-- Witness for C7: both constructors succeed at x = y = 2^32 − 1. -/
theorem claim_C7_witness :
    (ExampleCircuit.new 4294967295 4294967295).isOk = true ∧
    (TokenVerificationCircuit.new 4294967295 4294967295).isOk = true := by
  have h := claim_C7 4294967295 4294967295 (by omega) (by omega)
  exact ⟨h.2.1.mpr (by omega), h.2.2.2.mpr (by omega)⟩

/-! ## Claim C8: public_inputs and missing assignments -/

/-- C8 counterexample: `TokenVerificationCircuit::public_inputs` succeeds
with the private value `tokens_to_send` unset — it only consults
`tokens_asked` — refuting that it fails whenever either optional value is
unset. -/
theorem claim_C8_counterexample :
    TokenVerificationCircuit.public_inputs ⟨none, some 5⟩ =
      .ok [field_to_bytes 5] ∧
    TokenVerificationCircuit.public_inputs ⟨none, some 5⟩ ≠
      .error .MissingAssignment :=
  ⟨rfl, fun h => Except.noConfusion h⟩

/-- C8 (amended): `ExampleCircuit::public_inputs` fails with
`MissingAssignment` exactly when either optional value is unset, while
`TokenVerificationCircuit::public_inputs` fails exactly when `tokens_asked`
is unset, regardless of `tokens_to_send`. -/
theorem claim_C8 (a b : Option Nat) (rc : Bool) :
    (ExampleCircuit.public_inputs ⟨a, b, rc⟩ = .error .MissingAssignment ↔
      a = none ∨ b = none) ∧
    (TokenVerificationCircuit.public_inputs ⟨a, b⟩ = .error .MissingAssignment ↔
      b = none) := by
  cases a <;> cases b <;>
    simp [ExampleCircuit.public_inputs, TokenVerificationCircuit.public_inputs]

/-! ## Claim C5: general verifier gating and error mapping -/

/-- C5: the general `verify` returns `InvalidPublicInput` when the prepared
input point fails the on-curve-and-subgroup check, `InvalidProof` when any
proof point fails it, and otherwise returns the boolean outcome of the
pairing equation, mapping an internal pairing failure to
`VerificationFailed`; in particular a valid-point but unrelated proof whose
pairing comes out unsatisfied yields `Ok(false)`, not an error. -/
theorem claim_C5 (pairing : Except Unit Bool) (proof : ProofPoints)
    (publicInput : G1Flags) :
    (is_valid_point publicInput = false →
      generalVerify pairing proof publicInput = .error .InvalidPublicInput) ∧
    (is_valid_point publicInput = true → is_valid_proof proof = false →
      generalVerify pairing proof publicInput = .error .InvalidProof) ∧
    (is_valid_point publicInput = true → is_valid_proof proof = true →
      (∀ b, pairing = .ok b → generalVerify pairing proof publicInput = .ok b) ∧
      (pairing = .error () →
        generalVerify pairing proof publicInput = .error .VerificationFailed)) := by
  refine ⟨fun hpt => ?_, fun hpt hpr => ?_, fun hpt hpr => ⟨fun b hb => ?_, fun he => ?_⟩⟩
  · simp [generalVerify, hpt]
  · simp [generalVerify, hpt, hpr]
  · simp [generalVerify, hpt, hpr, hb]
  · simp [generalVerify, hpt, hpr, he]

/-- Witness for C5: with all points valid and the pairing equation
unsatisfied, `verify` returns `Ok(false)`. -/
theorem claim_C5_witness :
    generalVerify (.ok false) ⟨⟨true, true⟩, ⟨true, true⟩, ⟨true, true⟩⟩
      ⟨true, true⟩ = .ok false :=
  ((claim_C5 (.ok false) ⟨⟨true, true⟩, ⟨true, true⟩, ⟨true, true⟩⟩
    ⟨true, true⟩).2.2 rfl rfl).1 false rfl

/-- Witness for C2 at a concrete proving key size and public-input list. -/
theorem claim_C2_witness :
    (generate_proof_package 1
      ((ExampleCircuit.generate_constraints ⟨some 500, some 1000, true⟩).map
        (fun o => o.cs)) [field_to_bytes 500, field_to_bytes 1000]).isOk =
      false :=
  claim_C2.2.2.2 1 [field_to_bytes 500, field_to_bytes 1000]

/-- Witness for C4 at the concrete token circuit (2, 3): tokens_to_send is
the witness variable and the exposed public inputs are exactly the
serialized tokens_asked. -/
theorem claim_C4_witness :
    (TokenVerificationCircuit.generate_constraints ⟨some 2, some 3⟩).map
      (fun o => (o.sendVar.isWitnessVar, o.askedVar.isInstanceVar)) =
      .ok (true, true) ∧
    TokenVerificationCircuit.public_inputs ⟨some 2, some 3⟩ =
      .ok [field_to_bytes 3] :=
  ⟨(claim_C4 2 3).1, (claim_C4 2 3).2.2.1⟩

/-- Witness for C8 at a concrete circuit with both values unset. -/
theorem claim_C8_witness :
    ExampleCircuit.public_inputs ⟨none, none, true⟩ =
      .error .MissingAssignment :=
  (claim_C8 none none true).1.mpr (Or.inl rfl)
